import Mathlib

/-!
Shallow embedding of the whatsapp-automation bulk-messaging service.

The positioning engine (`calculateUserImagePosition`, `calculateTextPosition`)
and the `/api/send-bulk-message` pipeline (validation, operation record,
recipient loop, per-recipient error handling) are translated from the
source file `src/unnamed/part_002`.  JavaScript numbers are modelled as
rationals (all arithmetic used is exact halving / percentage scaling),
`Math.round` as floor of x + 1/2 (JS rounds half toward positive
infinity), and JS truthiness of strings / numbers is modelled explicitly.
Timestamps (Date values) are omitted from the records.
-/

namespace WhatsAppAutomation

/-- JS `Math.round`: round half up, i.e. floor of x + 1/2. -/
def jsRound (x : ℚ) : ℤ := Int.floor (x + 1 / 2)

/-- JS truthiness of an optional string field: present and nonempty. -/
def strTruthy : Option String → Bool
  | some s => s != ""
  | none => false

/-- JS `value || default` for an optional numeric field: 0 (falsy) and
absence both yield the default. -/
def jsOrNum : Option ℚ → ℚ → ℚ
  | some v, d => if v = 0 then d else v
  | none, d => d

/-- JS `value || default` for an optional string field: the empty string
(falsy) and absence both yield the default. -/
def jsOrStr : Option String → String → String
  | some s, d => if s = "" then d else s
  | none, d => d

/-- A custom-axis value: either a string suffixed with a percent sign
(percentage of the container dimension) or a bare number of pixels;
the source tests `custom.top.toString().includes(percent)`. -/
inductive CustomVal where
  | pct (value : ℚ)
  | px (value : ℚ)
deriving DecidableEq

/-- Resolution of one custom axis against the matching container
dimension (`(parseFloat(v) / 100) * dim` for percentages). -/
def resolveCustomAxis (dim : ℚ) : CustomVal → ℚ
  | .pct p => p / 100 * dim
  | .px v => v

/-- The `custom` object of a user-image position configuration. -/
structure CustomPos where
  top : Option CustomVal
  left : Option CustomVal
deriving DecidableEq

/-- A `user_image_position` configuration object: `preset`/`margin`,
`custom`, or legacy direct `top`/`left` fields. -/
structure PositionConfig where
  preset : Option String
  margin : Option ℚ
  custom : Option CustomPos
  top : Option ℚ
  left : Option ℚ
deriving DecidableEq

/-- The nine compass preset names of the positioning switch. -/
def compassPresets : List String :=
  ["top-left", "top-center", "top-right", "center-left", "center",
   "center-right", "bottom-left", "bottom-center", "bottom-right"]

/-- The preset switch of `calculateUserImagePosition` (source lines
185-226): maps a preset name, margin and sizes to a pre-clamp
(top, left) pair; unrecognized names fall to the default (100, 20). -/
def presetUserImagePos (W H w h m : ℚ) (p : String) : ℚ × ℚ :=
  if p = "top-left" then (m, m)
  else if p = "top-center" then (m, (W - w) / 2)
  else if p = "top-right" then (m, W - w - m)
  else if p = "center-left" then ((H - h) / 2, m)
  else if p = "center" then ((H - h) / 2, (W - w) / 2)
  else if p = "center-right" then ((H - h) / 2, W - w - m)
  else if p = "bottom-left" then (H - h - m, m)
  else if p = "bottom-center" then (H - h - m, (W - w) / 2)
  else if p = "bottom-right" then (H - h - m, W - w - m)
  else (100, 20)

/-- Branch selection of `calculateUserImagePosition` (source lines
177-246) producing the pre-clamp (top, left): a truthy `preset` wins,
else a present `custom` object, else legacy direct `top`/`left` (JS
`||` fallback per axis), else the defaults top=100, left=20. -/
def resolveUserImagePos (W H w h : ℚ) (cfg : PositionConfig) : ℚ × ℚ :=
  if strTruthy cfg.preset then
    presetUserImagePos W H w h (jsOrNum cfg.margin 20) (cfg.preset.getD "")
  else
    match cfg.custom with
    | some c =>
      ((match c.top with | some v => resolveCustomAxis H v | none => 100),
       (match c.left with | some v => resolveCustomAxis W v | none => 20))
    | none =>
      if cfg.top.isSome || cfg.left.isSome then
        (jsOrNum cfg.top 100, jsOrNum cfg.left 20)
      else (100, 20)

/-- `calculateUserImagePosition` (source lines 173-253): resolve the
configuration, clamp top into [0, H-h] and left into [0, W-w] via
`Math.max(0, Math.min(v, bound))`, and round each coordinate. -/
def calculateUserImagePosition (W H w h : ℚ) (cfg : PositionConfig) : ℤ × ℤ :=
  let p := resolveUserImagePos W H w h cfg
  (jsRound (max 0 (min p.1 (H - h))), jsRound (max 0 (min p.2 (W - w))))

/-- The `custom` object of a text configuration. -/
structure TextCustom where
  x : Option CustomVal
  y : Option CustomVal
  align : Option String
deriving DecidableEq

/-- A text position configuration: `preset`/`margin`/`fontSize`,
`custom` (with optional `align`), or legacy direct `x`/`y`/`align`. -/
structure TextConfig where
  preset : Option String
  margin : Option ℚ
  fontSize : Option ℚ
  custom : Option TextCustom
  x : Option ℚ
  y : Option ℚ
  align : Option String
deriving DecidableEq

/-- The preset switch of `calculateTextPosition` (source lines 269-320):
anchor point plus horizontal text anchor; unrecognized names default to
the bottom-center row. -/
def presetTextPos (W H m fs : ℚ) (p : String) : ℚ × ℚ × String :=
  if p = "top-left" then (m, fs + m, "start")
  else if p = "top-center" then (W / 2, fs + m, "middle")
  else if p = "top-right" then (W - m, fs + m, "end")
  else if p = "center-left" then (m, H / 2, "start")
  else if p = "center" then (W / 2, H / 2, "middle")
  else if p = "center-right" then (W - m, H / 2, "end")
  else if p = "bottom-left" then (m, H - m, "start")
  else if p = "bottom-center" then (W / 2, H - m, "middle")
  else if p = "bottom-right" then (W - m, H - m, "end")
  else (W / 2, H - m, "middle")

/-- Branch selection of `calculateTextPosition` (source lines 259-348)
producing the pre-clamp (x, y, textAnchor): defaults x=W/2, y=H-50,
anchor middle; a truthy `preset` wins, else `custom`, else legacy
direct `x`/`y` (JS `||` fallback per axis); a truthy `align` overrides
the anchor in the custom and legacy branches. -/
def resolveTextPos (W H : ℚ) (cfg : TextConfig) : ℚ × ℚ × String :=
  if strTruthy cfg.preset then
    presetTextPos W H (jsOrNum cfg.margin 20) (jsOrNum cfg.fontSize 40) (cfg.preset.getD "")
  else
    match cfg.custom with
    | some c =>
      ((match c.x with | some v => resolveCustomAxis W v | none => W / 2),
       (match c.y with | some v => resolveCustomAxis H v | none => H - 50),
       jsOrStr c.align "middle")
    | none =>
      if cfg.x.isSome || cfg.y.isSome then
        (jsOrNum cfg.x (W / 2), jsOrNum cfg.y (H - 50), jsOrStr cfg.align "middle")
      else (W / 2, H - 50, "middle")

/-- `calculateTextPosition` (source lines 256-356): resolve the
configuration, clamp x into [0, W] and y into [fontSize, H], round the
coordinates, and keep the text anchor. -/
def calculateTextPosition (W H : ℚ) (cfg : TextConfig) : ℤ × ℤ × String :=
  let p := resolveTextPos W H cfg
  let fs := jsOrNum cfg.fontSize 40
  (jsRound (max 0 (min p.1 W)), jsRound (max fs (min p.2.1 H)), p.2.2)

/-- Shorthand for a preset-shaped image position configuration. -/
def presetCfg (p : String) (m : ℚ) : PositionConfig := ⟨some p, some m, none, none, none⟩

/-- Shorthand for a custom-shaped image position configuration. -/
def customCfg (c : CustomPos) : PositionConfig := ⟨none, none, some c, none, none⟩

/-- Shorthand for a legacy-shaped image position configuration. -/
def legacyCfg (t l : Option ℚ) : PositionConfig := ⟨none, none, none, t, l⟩

/-- Shorthand for a preset-shaped text configuration. -/
def textPresetCfg (p : String) (m fs : ℚ) : TextConfig := ⟨some p, some m, some fs, none, none, none, none⟩

example : calculateUserImagePosition 800 600 200 200 (presetCfg "center" 20) = (200, 300) := by
  simp [calculateUserImagePosition, resolveUserImagePos, presetUserImagePos, presetCfg,
    strTruthy, jsOrNum]
  norm_num [jsRound, min_def, max_def]

example : calculateUserImagePosition 150 150 100 100 (presetCfg "outside" 20) = (50, 20) := by
  simp [calculateUserImagePosition, resolveUserImagePos, presetUserImagePos, presetCfg,
    strTruthy, jsOrNum]
  norm_num [jsRound, min_def, max_def]

example : calculateUserImagePosition 800 600 100 100 (customCfg ⟨some (.pct 50), some (.px 100)⟩) = (300, 100) := by
  simp [calculateUserImagePosition, resolveUserImagePos, resolveCustomAxis, customCfg, strTruthy]
  norm_num [jsRound, min_def, max_def]

example : calculateTextPosition 1000 500 (textPresetCfg "bottom-center" 20 40) = (500, 480, "middle") := by
  simp [calculateTextPosition, resolveTextPos, presetTextPos, textPresetCfg, strTruthy, jsOrNum]
  norm_num [jsRound, min_def, max_def]

example : calculateUserImagePosition 1000 1000 100 100 (legacyCfg (some 0) (some 50)) = (100, 50) := by
  simp [calculateUserImagePosition, resolveUserImagePos, legacyCfg, strTruthy, jsOrNum]
  norm_num [jsRound, min_def, max_def]

/-! ## Bulk messaging pipeline (`/api/send-bulk-message`, source lines 1452-1830) -/

/-- A user record as stored in the user collection (Date fields omitted). -/
structure UserRec where
  user_id : String
  user_name : String
  user_phone : String
  user_role : String
  user_image : String
deriving DecidableEq

/-- The shape of a caught JS error relevant to error-code selection:
its message, an optional provider code (`error.response.data.error.code`)
and an optional transport code (`error.code`). -/
structure ErrInfo where
  message : String
  providerCode : Option String
  transportCode : Option String
deriving DecidableEq

/-- A per-recipient result record of the operation schema (source lines
57-70); Date fields omitted. -/
structure DeliveryResult where
  userId : String
  userName : String
  userPhone : String
  userRole : String
  status : String
  messageId : Option String
  error : Option String
  errorCode : Option String
  personalizedImageUrl : Option String
deriving DecidableEq

/-- The aggregate counters of the operation schema (source lines 50-56),
modelled over ℤ like JS numbers. -/
structure Summary where
  totalTargeted : ℤ
  successCount : ℤ
  failureCount : ℤ
  pendingCount : ℤ
  processingTimeMs : ℤ
deriving DecidableEq

/-- An outbound WhatsApp message payload: an image template (header =
personalized image URL, body = user name) or a plain text message. -/
inductive MessagePayload where
  | template (dest templateName imageUrl bodyText : String)
  | text (dest body : String)
deriving DecidableEq

/-- Whether the first list starts with the second. -/
def listStartsWith : List Char → List Char → Bool
  | _, [] => true
  | [], _ :: _ => false
  | a :: as, b :: bs => a = b && listStartsWith as bs

/-- Replace the first occurrence of `pat` by `rep` in a character
list. -/
def replaceFirstChars (pat rep : List Char) : List Char → List Char
  | [] => []
  | c :: cs =>
    if listStartsWith (c :: cs) pat then rep ++ (c :: cs).drop pat.length
    else c :: replaceFirstChars pat rep cs

/-- JS `message_content.replace(pattern, name)` with a string pattern:
replaces only the first occurrence of the placeholder. -/
def substituteName (content name : String) : String :=
  String.mk (replaceFirstChars "\x7b\x7bname\x7d\x7d".data name.data content.data)

/-- Outcome of the personalization pipeline for one user (profile-image
download, composition, text overlay, S3 upload): a personalized image
URL, or the error thrown by whichever step failed. -/
inductive PersonalizeOutcome where
  | ok (url : String)
  | err (e : ErrInfo)

/-- Outcome of one WhatsApp send call. -/
inductive SendOutcome where
  | ok (messageId : String)
  | err (e : ErrInfo)

/-- The external world of the recipient loop: the personalization
pipeline and the WhatsApp delivery call, as oracles. -/
structure Env where
  personalize : UserRec → PersonalizeOutcome
  send : UserRec → MessagePayload → SendOutcome

/-- Error-code selection of the catch block (source lines 1752-1758):
provider-supplied code, else transport code, else UNKNOWN_ERROR. -/
def pickErrorCode (e : ErrInfo) : String :=
  match e.providerCode with
  | some c => c
  | none =>
    match e.transportCode with
    | some c => c
    | none => "UNKNOWN_ERROR"

/-- The message-construction part of the loop body (source lines
1594-1721): when a poster file was uploaded AND include_user_image is
set, run the personalization pipeline and build the image-template
payload (recording the personalized URL); otherwise build the
plain-text payload with the name placeholder substituted. -/
def attemptBuild (env : Env) (posterPresent includeUserImage : Bool)
    (content templateName : String) (u : UserRec) :
    Except ErrInfo (MessagePayload × Option String) :=
  if posterPresent && includeUserImage then
    match env.personalize u with
    | .ok url => .ok (.template u.user_phone templateName url u.user_name, some url)
    | .err e => .error e
  else
    .ok (.text u.user_phone (substituteName content u.user_name), none)

/-- The per-recipient record after a successful send (source lines
1739-1741): status success, the provider message id, and the
personalized image URL when one was uploaded. -/
def successResult (u : UserRec) (mid : String) (url : Option String) : DeliveryResult :=
  ⟨u.user_id, u.user_name, u.user_phone, u.user_role, "success", some mid, none, none, url⟩

/-- The per-recipient record after a caught failure (catch block,
source lines 1746-1761): status failed, the error message, the
selected error code, and the personalized image URL if the upload had
already succeeded before the failure. -/
def failedResult (u : UserRec) (e : ErrInfo) (url : Option String) : DeliveryResult :=
  ⟨u.user_id, u.user_name, u.user_phone, u.user_role, "failed", none, some e.message,
   some (pickErrorCode e), url⟩

/-- The per-recipient Delivery Result produced by one loop iteration
(try block lines 1593-1745, catch block lines 1746-1761): the
personalized URL is recorded as soon as the upload succeeded, so it is
present on a send failure but absent on a personalization failure. -/
def processOneUser (env : Env) (posterPresent includeUserImage : Bool)
    (content templateName : String) (u : UserRec) : DeliveryResult :=
  match attemptBuild env posterPresent includeUserImage content templateName u with
  | .ok (payload, url) =>
    match env.send u payload with
    | .ok mid => successResult u mid url
    | .err e => failedResult u e url
  | .error e => failedResult u e none

/-- The error with which one loop iteration lands in the catch block,
if any: a personalization failure, else a send failure. -/
def stepError (env : Env) (posterPresent includeUserImage : Bool)
    (content templateName : String) (u : UserRec) : Option ErrInfo :=
  match attemptBuild env posterPresent includeUserImage content templateName u with
  | .error e => some e
  | .ok (payload, _) =>
    match env.send u payload with
    | .ok _ => none
    | .err e => some e

/-- One iteration of the recipient loop (source lines 1583-1765):
increment successCount or failureCount according to the outcome,
decrement pendingCount, append the Delivery Result. -/
def stepUser (env : Env) (posterPresent includeUserImage : Bool)
    (content templateName : String) (st : Summary × List DeliveryResult)
    (u : UserRec) : Summary × List DeliveryResult :=
  let s1 :=
    match attemptBuild env posterPresent includeUserImage content templateName u with
    | .ok (payload, _) =>
      match env.send u payload with
      | .ok _ => {st.1 with successCount := st.1.successCount + 1}
      | .err _ => {st.1 with failureCount := st.1.failureCount + 1}
    | .error _ => {st.1 with failureCount := st.1.failureCount + 1}
  ({s1 with pendingCount := s1.pendingCount - 1},
   st.2 ++ [processOneUser env posterPresent includeUserImage content templateName u])

/-- The whole recipient loop: left fold of `stepUser` over the resolved
user list. -/
def runRecipientLoop (env : Env) (posterPresent includeUserImage : Bool)
    (content templateName : String) (users : List UserRec)
    (st : Summary × List DeliveryResult) : Summary × List DeliveryResult :=
  users.foldl (stepUser env posterPresent includeUserImage content templateName) st

/-- The summary right after recipient resolution (source lines
1566-1567): totalTargeted and pendingCount set to the user count,
success and failure counts still zero. -/
def initLoopSummary (n : ℕ) : Summary := ⟨(n : ℤ), 0, 0, (n : ℤ), 0⟩

/-- The conservation property of the summary counters. -/
def summaryConserved (s : Summary) : Prop :=
  s.successCount + s.failureCount + s.pendingCount = s.totalTargeted

/-- The fixed role set of the endpoint (source line 1518). -/
def validRoles : List String := ["karyakarta", "admin", "user", "manager"]

/-- An operation tracking record (operation schema, source lines 43-73;
Date fields omitted). -/
structure Operation where
  operationId : String
  status : String
  targetRoles : List String
  messageContent : String
  templateName : String
  includeUserImage : Bool
  summary : Summary
  results : List DeliveryResult
deriving DecidableEq

/-- The all-zero summary the schema defaults provide at creation. -/
def zeroSummary : Summary := ⟨0, 0, 0, 0, 0⟩

/-- A parsed bulk-send request: `target_roles` is the parsed JSON array
(none when absent or not an array), `message_content` the raw field,
and `posterPresent` whether a poster_image file accompanied the
request. -/
structure BulkRequest where
  target_roles : Option (List String)
  message_content : Option String
  template_name : String
  include_user_image : Bool
  posterPresent : Bool

/-- The response of the endpoint: a 400 validation error with a
field-to-reason map, the 404 NO_USERS_FOUND error naming the queried
roles, or the 200 success body. -/
inductive BulkResponse where
  | validationError (details : List (String × String))
  | noUsersFound (roles : List String)
  | ok (summary : Summary) (results : List DeliveryResult) (operationId : String)
deriving DecidableEq

/-- Observable side effects of one request: the operation record left in
the store (none when none was created) and whether the user query ran. -/
structure BulkEffects where
  savedOperation : Option Operation
  resolverCalled : Bool
deriving DecidableEq

/-- JS `String.prototype.trim`: strip leading and trailing whitespace,
modelled structurally over the character list. -/
def jsTrim (s : String) : String :=
  String.mk (((s.data.dropWhile Char.isWhitespace).reverse.dropWhile Char.isWhitespace).reverse)

/-- The validation chain of the endpoint (source lines 1480-1531), in
source order: roles present/array/non-empty, message present and
non-blank, message length at most 1000, every role in the fixed set. -/
def validateBulk (req : BulkRequest) : Option (List (String × String)) :=
  match req.target_roles with
  | none => some [("target_roles", "At least one role must be specified")]
  | some roles =>
    if roles.length = 0 then
      some [("target_roles", "At least one role must be specified")]
    else
      match req.message_content with
      | none => some [("message_content", "Message content is required and cannot be empty")]
      | some mc =>
        if (jsTrim mc).length = 0 then
          some [("message_content", "Message content is required and cannot be empty")]
        else if mc.length > 1000 then
          some [("message_content", "Message content cannot exceed 1000 characters")]
        else if (roles.filter (fun r => decide (r ∉ validRoles))).length > 0 then
          some [("target_roles", "Invalid roles")]
        else none

/-- The endpoint handler (source lines 1452-1788): validate (no side
effect on failure), create the operation record with status
processing, resolve users, return 404 and mark the operation completed
when no users match, else initialize the summary, run the recipient
loop, and persist the completed operation. -/
def handleBulk (opId : String) (req : BulkRequest)
    (resolver : List String → List UserRec) (env : Env) : BulkResponse × BulkEffects :=
  match validateBulk req with
  | some details => (.validationError details, ⟨none, false⟩)
  | none =>
    let roles := req.target_roles.getD []
    let content := req.message_content.getD ""
    let op : Operation :=
      ⟨opId, "processing", roles, content, req.template_name, req.include_user_image,
       zeroSummary, []⟩
    let users := resolver roles
    if users.length = 0 then
      (.noUsersFound roles, ⟨some {op with status := "completed"}, true⟩)
    else
      let s0 : Summary :=
        {zeroSummary with totalTargeted := (users.length : ℤ), pendingCount := (users.length : ℤ)}
      let out := runRecipientLoop env req.posterPresent req.include_user_image content
        req.template_name users (s0, [])
      (.ok out.1 out.2 opId,
       ⟨some {op with status := "completed", summary := out.1, results := out.2}, true⟩)

/-- The status query endpoint `/api/message-status/:operationId`
(source lines 1833-1848): look the operation up by id. -/
def getStatus (opId : String) (store : List Operation) : Option Operation :=
  store.find? (fun o => o.operationId == opId)

/-! ## Loop lemmas -/

/-- Each loop iteration keeps totalTargeted, moves exactly one unit from
pending to success or failure, and appends exactly the one Delivery
Result of that user. -/
theorem stepUser_spec (env : Env) (pp iui : Bool) (c t : String)
    (st : Summary × List DeliveryResult) (u : UserRec) :
    (stepUser env pp iui c t st u).1.totalTargeted = st.1.totalTargeted ∧
    (stepUser env pp iui c t st u).1.successCount + (stepUser env pp iui c t st u).1.failureCount
      = st.1.successCount + st.1.failureCount + 1 ∧
    (stepUser env pp iui c t st u).1.pendingCount = st.1.pendingCount - 1 ∧
    (stepUser env pp iui c t st u).2 = st.2 ++ [processOneUser env pp iui c t u] := by
  unfold stepUser
  rcases hb : attemptBuild env pp iui c t u with e | pr
  · simp [hb]
    ring
  · rcases pr with ⟨payload, url⟩
    rcases hs : env.send u payload with mid | e <;> simp [hb, hs] <;> ring

/-- Folding the loop over a user list: totalTargeted is unchanged, the
number of processed users moves from pending to success+failure, and
the result list extends by one Delivery Result per user in order. -/
theorem runLoop_spec (env : Env) (pp iui : Bool) (c t : String) (users : List UserRec)
    (st : Summary × List DeliveryResult) :
    (runRecipientLoop env pp iui c t users st).1.totalTargeted = st.1.totalTargeted ∧
    (runRecipientLoop env pp iui c t users st).1.successCount
        + (runRecipientLoop env pp iui c t users st).1.failureCount
      = st.1.successCount + st.1.failureCount + users.length ∧
    (runRecipientLoop env pp iui c t users st).1.pendingCount
      = st.1.pendingCount - users.length ∧
    (runRecipientLoop env pp iui c t users st).2
      = st.2 ++ users.map (processOneUser env pp iui c t) := by
  induction users generalizing st with
  | nil => simp [runRecipientLoop]
  | cons u us ih =>
    have hstep := stepUser_spec env pp iui c t st u
    have hrec := ih (stepUser env pp iui c t st u)
    have hun : runRecipientLoop env pp iui c t (u :: us) st
        = runRecipientLoop env pp iui c t us (stepUser env pp iui c t st u) := by
      simp [runRecipientLoop]
    rw [hun]
    refine ⟨?_, ?_, ?_, ?_⟩
    · rw [hrec.1, hstep.1]
    · rw [hrec.2.1, hstep.2.1]
      simp only [List.length_cons]
      push_cast
      ring
    · rw [hrec.2.2.1, hstep.2.2.1]
      simp only [List.length_cons]
      push_cast
      ring
    · rw [hrec.2.2.2, hstep.2.2.2]
      simp

/-- When an iteration lands in the catch block, it increments
failureCount and leaves successCount unchanged; otherwise the other
way round. -/
theorem stepUser_counts (env : Env) (pp iui : Bool) (c t : String)
    (st : Summary × List DeliveryResult) (u : UserRec) :
    ((stepError env pp iui c t u).isSome →
      (stepUser env pp iui c t st u).1.failureCount = st.1.failureCount + 1 ∧
      (stepUser env pp iui c t st u).1.successCount = st.1.successCount) ∧
    ((stepError env pp iui c t u) = none →
      (stepUser env pp iui c t st u).1.failureCount = st.1.failureCount ∧
      (stepUser env pp iui c t st u).1.successCount = st.1.successCount + 1) := by
  unfold stepUser stepError
  rcases hb : attemptBuild env pp iui c t u with e | pr
  · simp [hb]
  · rcases pr with ⟨payload, url⟩
    rcases hs : env.send u payload with mid | e <;> simp [hb, hs]

/-- If every user in the list fails, the loop adds the full list length
to failureCount and nothing to successCount. -/
theorem runLoop_all_failed (env : Env) (pp iui : Bool) (c t : String) (users : List UserRec)
    (st : Summary × List DeliveryResult)
    (hall : ∀ u ∈ users, (stepError env pp iui c t u).isSome) :
    (runRecipientLoop env pp iui c t users st).1.failureCount
      = st.1.failureCount + users.length ∧
    (runRecipientLoop env pp iui c t users st).1.successCount = st.1.successCount := by
  induction users generalizing st with
  | nil => simp [runRecipientLoop]
  | cons u us ih =>
    have hu := ((stepUser_counts env pp iui c t st u).1 (hall u (by simp)))
    have hrec := ih (stepUser env pp iui c t st u) (fun v hv => hall v (by simp [hv]))
    have hun : runRecipientLoop env pp iui c t (u :: us) st
        = runRecipientLoop env pp iui c t us (stepUser env pp iui c t st u) := by
      simp [runRecipientLoop]
    rw [hun]
    constructor
    · rw [hrec.1, hu.1]
      simp only [List.length_cons]
      push_cast
      ring
    · rw [hrec.2, hu.2]

/-- Error code selection is exactly the getD chain
provider-code, else transport-code, else UNKNOWN_ERROR. -/
theorem pickErrorCode_eq (e : ErrInfo) :
    pickErrorCode e = e.providerCode.getD (e.transportCode.getD "UNKNOWN_ERROR") := by
  rcases e with ⟨m, pc, tc⟩
  rcases pc with _ | c <;> rcases tc with _ | c2 <;> rfl

/-- The record of a failed iteration has status failed, the error
message, and the selected error code. -/
theorem processOneUser_failed (env : Env) (pp iui : Bool) (c t : String) (u : UserRec)
    (e : ErrInfo) (h : stepError env pp iui c t u = some e) :
    (processOneUser env pp iui c t u).status = "failed" ∧
    (processOneUser env pp iui c t u).error = some e.message ∧
    (processOneUser env pp iui c t u).errorCode = some (pickErrorCode e) := by
  unfold processOneUser
  unfold stepError at h
  rcases hb : attemptBuild env pp iui c t u with e2 | pr
  · rw [hb] at h
    simp at h
    subst h
    simp [failedResult]
  · rcases pr with ⟨payload, url⟩
    rw [hb] at h
    rcases hs : env.send u payload with mid | e2
    · simp [hs] at h
    · simp [hs] at h
      subst h
      simp [hs, failedResult]

/-! ## Demo fixtures used by witnesses -/

/-- A concrete user record. -/
def demoUser : UserRec := ⟨"u1", "Alice", "919999999999", "admin", "https://example.com/a.png"⟩

/-- An environment in which every external call fails at the send step
with a transport error code. -/
def envAllFail : Env :=
  ⟨fun _ => .err ⟨"download failed", none, none⟩,
   fun _ _ => .err ⟨"Request failed", none, some "ECONNABORTED"⟩⟩

/-- An environment in which every external call succeeds. -/
def envAllOk : Env :=
  ⟨fun _ => .ok "https://bucket/personalized/u1.png",
   fun _ _ => .ok "wamid.demo"⟩

/-- A concrete well-formed bulk request. -/
def demoReq : BulkRequest :=
  ⟨some ["admin"], some "Hello \x7b\x7bname\x7d\x7d", "poster_template", false, false⟩

/-! ## Claims -/

/-- Claim C1: for every bulk-send operation, after the summary is
initialized and after each recipient iteration of the processing loop,
successCount + failureCount + pendingCount equals totalTargeted; after
completion over a resolved recipient set of size N the result list has
exactly N entries, successCount + failureCount = N and
pendingCount = 0. -/
theorem c1_bulk_summary_invariant (env : Env) (pp iui : Bool) (c t : String)
    (users : List UserRec) :
    (∀ k : ℕ, summaryConserved
      ((runRecipientLoop env pp iui c t (users.take k) (initLoopSummary users.length, [])).1)) ∧
    (runRecipientLoop env pp iui c t users (initLoopSummary users.length, [])).2.length
      = users.length ∧
    (runRecipientLoop env pp iui c t users (initLoopSummary users.length, [])).1.successCount
      + (runRecipientLoop env pp iui c t users (initLoopSummary users.length, [])).1.failureCount
      = (users.length : ℤ) ∧
    (runRecipientLoop env pp iui c t users (initLoopSummary users.length, [])).1.pendingCount
      = 0 := by
  refine ⟨?_, ?_, ?_, ?_⟩
  · intro k
    have h := runLoop_spec env pp iui c t (users.take k) (initLoopSummary users.length, [])
    unfold summaryConserved
    rw [h.2.1, h.2.2.1, h.1]
    simp [initLoopSummary]
  · have h := runLoop_spec env pp iui c t users (initLoopSummary users.length, [])
    rw [h.2.2.2]
    simp
  · have h := runLoop_spec env pp iui c t users (initLoopSummary users.length, [])
    rw [h.2.1]
    simp [initLoopSummary]
  · have h := runLoop_spec env pp iui c t users (initLoopSummary users.length, [])
    rw [h.2.2.1]
    simp [initLoopSummary]

/-- Claim C2: a failure while processing one recipient never aborts the
loop: that recipient's Delivery Result records status failed, the error
message and an error code chosen by precedence provider code, else
transport code, else UNKNOWN_ERROR; every recipient is still processed,
and the operation reaches status completed even when every recipient
fails. -/
theorem c2_failure_never_aborts (env : Env) (pp iui : Bool) (c t : String)
    (users : List UserRec) (opId : String) (req : BulkRequest)
    (resolver : List String → List UserRec) :
    (runRecipientLoop env pp iui c t users (initLoopSummary users.length, [])).2.length
      = users.length ∧
    (∀ i : ℕ, ∀ hi : i < users.length, ∀ e : ErrInfo,
      stepError env pp iui c t (users.get ⟨i, hi⟩) = some e →
      ∃ r : DeliveryResult,
        (runRecipientLoop env pp iui c t users (initLoopSummary users.length, [])).2.get? i
          = some r ∧
        r.status = "failed" ∧ r.error = some e.message ∧
        r.errorCode = some (e.providerCode.getD (e.transportCode.getD "UNKNOWN_ERROR"))) ∧
    ((∀ u ∈ users, (stepError env pp iui c t u).isSome) →
      (runRecipientLoop env pp iui c t users (initLoopSummary users.length, [])).1.failureCount
        = (users.length : ℤ)) ∧
    (validateBulk req = none → resolver (req.target_roles.getD []) ≠ [] →
      ∃ op : Operation, (handleBulk opId req resolver env).2.savedOperation = some op ∧
        op.status = "completed") := by
  have h := runLoop_spec env pp iui c t users (initLoopSummary users.length, [])
  refine ⟨?_, ?_, ?_, ?_⟩
  · rw [h.2.2.2]
    simp
  · intro i hi e he
    refine ⟨processOneUser env pp iui c t (users.get ⟨i, hi⟩), ?_, ?_⟩
    · rw [h.2.2.2]
      simp only [List.nil_append, List.get?_map]
      rw [List.get?_eq_get hi]
      rfl
    · have hf := processOneUser_failed env pp iui c t (users.get ⟨i, hi⟩) e he
      rw [← pickErrorCode_eq]
      exact ⟨hf.1, hf.2.1, hf.2.2⟩
  · intro hall
    have hf := runLoop_all_failed env pp iui c t users (initLoopSummary users.length, []) hall
    rw [hf.1]
    simp [initLoopSummary]
  · intro hv hne
    have hlen : (resolver (req.target_roles.getD [])).length ≠ 0 := by
      simpa [List.length_eq_zero] using hne
    unfold handleBulk
    rw [hv]
    simp only [hlen, if_false]
    exact ⟨_, rfl, rfl⟩

/-- Witness for C2: with one recipient and an environment in which the
send call always fails, the loop records one failure. -/
theorem c2_failure_never_aborts_witness :
    (runRecipientLoop envAllFail false false "Hello" "poster_template" [demoUser]
      (initLoopSummary [demoUser].length, [])).1.failureCount = ([demoUser].length : ℤ) := by
  have h := c2_failure_never_aborts envAllFail false false "Hello" "poster_template" [demoUser]
    "bulk_op_1" demoReq (fun _ => [demoUser])
  exact h.2.2.1 (by
    intro u hu
    rw [List.mem_singleton] at hu
    subst hu
    rfl)

/-- Every error map the validation chain can produce is non-empty. -/
theorem validateBulk_some_ne_nil (req : BulkRequest) (d : List (String × String))
    (h : validateBulk req = some d) : d ≠ [] := by
  rcases req with ⟨tr, mc0, tn, iui0, pp0⟩
  rcases tr with _ | roles
  · simp [validateBulk] at h
    subst h
    simp
  · rcases mc0 with _ | mc
    · simp only [validateBulk] at h
      split at h
      all_goals
        simp at h
        subst h
        simp
    · simp only [validateBulk] at h
      split at h
      · simp at h
        subst h
        simp
      · split at h
        · simp at h
          subst h
          simp
        · split at h
          · simp at h
            subst h
            simp
          · split at h
            · simp at h
              subst h
              simp
            · simp at h

/-- Under any of the rejection conditions of claim C3 the validation
chain rejects. -/
theorem validateBulk_rejects (req : BulkRequest)
    (h : req.target_roles = none ∨ req.target_roles = some [] ∨
         (∃ r ∈ req.target_roles.getD [], r ∉ validRoles) ∨
         req.message_content = none ∨ req.message_content = some "" ∨
         1000 < (req.message_content.getD "").length) :
    validateBulk req ≠ none := by
  intro hnone
  rcases req with ⟨tr, mc0, tn, iui0, pp0⟩
  simp only at h
  rcases tr with _ | roles
  · simp [validateBulk] at hnone
  · rcases mc0 with _ | mc
    · simp only [validateBulk] at hnone
      split at hnone <;> simp at hnone
    · simp only [validateBulk] at hnone
      split at hnone
      · simp at hnone
      · split at hnone
        · simp at hnone
        · split at hnone
          · simp at hnone
          · split at hnone
            · simp at hnone
            · rename_i h1 h2 h3 h4
              rcases h with h | h | h | h | h | h
              · simp at h
              · simp at h
                subst h
                simp at h1
              · obtain ⟨r, hrm, hrv⟩ := h
                simp only [Option.getD_some] at hrm
                have hmem : r ∈ roles.filter (fun r => decide (r ∉ validRoles)) := by
                  rw [List.mem_filter]
                  exact ⟨hrm, by simpa using hrv⟩
                have hpos : 0 < (roles.filter (fun r => decide (r ∉ validRoles))).length :=
                  List.length_pos.mpr (List.ne_nil_of_mem hmem)
                exact h4 hpos
              · simp at h
              · simp at h
                subst h
                exact h2 (by rfl)
              · simp only [Option.getD_some] at h
                exact h3 h

/-- Claim C3: if the role list is absent/empty or contains a role
outside the fixed set, or the message body is absent/empty or longer
than 1000 characters, the request fails with a validation error
carrying a non-empty field-to-reason map, no operation record is
created and no recipient resolution occurs. -/
theorem c3_validation_fail_fast (opId : String) (req : BulkRequest)
    (resolver : List String → List UserRec) (env : Env)
    (h : req.target_roles = none ∨ req.target_roles = some [] ∨
         (∃ r ∈ req.target_roles.getD [], r ∉ validRoles) ∨
         req.message_content = none ∨ req.message_content = some "" ∨
         1000 < (req.message_content.getD "").length) :
    ∃ details : List (String × String), details ≠ [] ∧
      handleBulk opId req resolver env = (.validationError details, ⟨none, false⟩) := by
  rcases hv : validateBulk req with _ | d
  · exact absurd hv (validateBulk_rejects req h)
  · refine ⟨d, validateBulk_some_ne_nil req d hv, ?_⟩
    unfold handleBulk
    rw [hv]

/-- Witness for C3: a request whose role list is empty is rejected with
no side effects. -/
theorem c3_validation_fail_fast_witness :
    ∃ details : List (String × String), details ≠ [] ∧
      handleBulk "bulk_op_2" ⟨some [], some "ping", "poster_template", false, false⟩
        (fun _ => [demoUser]) envAllOk = (.validationError details, ⟨none, false⟩) :=
  c3_validation_fail_fast "bulk_op_2" ⟨some [], some "ping", "poster_template", false, false⟩
    (fun _ => [demoUser]) envAllOk (Or.inr (Or.inl rfl))

/-- Claim C4: when a valid request resolves to zero recipients, the
already-created operation record is saved with status completed and an
all-zero summary (totalTargeted = 0), stays queryable by its id, and
the call itself returns the not-found error naming the queried
roles. -/
theorem c4_empty_recipients (opId : String) (req : BulkRequest)
    (resolver : List String → List UserRec) (env : Env)
    (hv : validateBulk req = none)
    (he : resolver (req.target_roles.getD []) = []) :
    ∃ op : Operation,
      handleBulk opId req resolver env
        = (.noUsersFound (req.target_roles.getD []), ⟨some op, true⟩) ∧
      op.status = "completed" ∧ op.summary = zeroSummary ∧
      zeroSummary.totalTargeted = 0 ∧ op.operationId = opId ∧
      getStatus opId [op] = some op := by
  unfold handleBulk
  rw [hv]
  simp only [he, List.length_nil, if_pos]
  refine ⟨_, rfl, rfl, rfl, rfl, rfl, ?_⟩
  simp [getStatus]

/-- Witness for C4: a valid request targeting a role with no users
leaves a queryable completed zero operation and returns not-found. -/
theorem c4_empty_recipients_witness :
    ∃ op : Operation,
      handleBulk "bulk_op_3" demoReq (fun _ => []) envAllOk
        = (.noUsersFound (demoReq.target_roles.getD []), ⟨some op, true⟩) ∧
      op.status = "completed" ∧ op.summary = zeroSummary ∧
      zeroSummary.totalTargeted = 0 ∧ op.operationId = "bulk_op_3" ∧
      getStatus "bulk_op_3" [op] = some op :=
  c4_empty_recipients "bulk_op_3" demoReq (fun _ => []) envAllOk (by decide) rfl

/-! ## Rounding and clamping lemmas -/

/-- Rounding keeps integer lower bounds. -/
theorem le_jsRound_of_le (x : ℚ) (z : ℤ) (h : (z : ℚ) ≤ x) : z ≤ jsRound x := by
  unfold jsRound
  exact Int.le_floor.mpr (by linarith)

/-- Rounding keeps integer upper bounds. -/
theorem jsRound_le_of_le (x : ℚ) (z : ℤ) (h : x ≤ (z : ℚ)) : jsRound x ≤ z := by
  unfold jsRound
  have hlt : (⌊x + 1 / 2⌋ : ℤ) < z + 1 := by
    rw [Int.floor_lt]
    push_cast
    linarith
  omega

/-- The clamp-then-round pattern lands in the integer interval. -/
theorem jsRound_clamp_mem (x : ℚ) (lo hi : ℤ) (hlh : lo ≤ hi) :
    lo ≤ jsRound (max (lo : ℚ) (min x (hi : ℚ))) ∧
    jsRound (max (lo : ℚ) (min x (hi : ℚ))) ≤ hi := by
  constructor
  · exact le_jsRound_of_le _ _ (le_max_left _ _)
  · refine jsRound_le_of_le _ _ (max_le ?_ (min_le_right _ _))
    exact_mod_cast hlh

/-- When the upper clamp bound is negative, the clamp-then-round
pattern collapses to 0. -/
theorem jsRound_clamp_neg (x hi : ℚ) (hhi : hi < 0) :
    jsRound (max 0 (min x hi)) = 0 := by
  have h1 : min x hi ≤ hi := min_le_right _ _
  have h2 : max (0 : ℚ) (min x hi) = 0 := max_eq_left (by linarith)
  rw [h2]
  unfold jsRound
  norm_num

/-- Claim C6: for every position specification, `placeOverlay` clamps
last and rounds to integers: whenever w ≤ W and h ≤ H the output
satisfies 0 ≤ top ≤ H-h and 0 ≤ left ≤ W-w, and when h > H
(respectively w > W) the corresponding coordinate is 0. -/
theorem c6_clamp_and_round (W H w h : ℕ) (cfg : PositionConfig) :
    (h ≤ H → w ≤ W →
      0 ≤ (calculateUserImagePosition W H w h cfg).1 ∧
      (calculateUserImagePosition W H w h cfg).1 ≤ (H : ℤ) - (h : ℤ) ∧
      0 ≤ (calculateUserImagePosition W H w h cfg).2 ∧
      (calculateUserImagePosition W H w h cfg).2 ≤ (W : ℤ) - (w : ℤ)) ∧
    (H < h → (calculateUserImagePosition W H w h cfg).1 = 0) ∧
    (W < w → (calculateUserImagePosition W H w h cfg).2 = 0) := by
  have e1 : (calculateUserImagePosition (W : ℚ) (H : ℚ) (w : ℚ) (h : ℚ) cfg).1
      = jsRound (max 0 (min (resolveUserImagePos W H w h cfg).1 ((H : ℚ) - (h : ℚ)))) := rfl
  have e2 : (calculateUserImagePosition (W : ℚ) (H : ℚ) (w : ℚ) (h : ℚ) cfg).2
      = jsRound (max 0 (min (resolveUserImagePos W H w h cfg).2 ((W : ℚ) - (w : ℚ)))) := rfl
  refine ⟨?_, ?_, ?_⟩
  · intro hH hW
    have hb1 := jsRound_clamp_mem (resolveUserImagePos W H w h cfg).1 0 ((H : ℤ) - (h : ℤ))
      (by omega)
    have hb2 := jsRound_clamp_mem (resolveUserImagePos W H w h cfg).2 0 ((W : ℤ) - (w : ℤ))
      (by omega)
    push_cast at hb1 hb2
    rw [e1, e2]
    exact ⟨hb1.1, hb1.2, hb2.1, hb2.2⟩
  · intro hlt
    rw [e1]
    apply jsRound_clamp_neg
    have : (H : ℚ) < (h : ℚ) := by exact_mod_cast hlt
    linarith
  · intro hlt
    rw [e2]
    apply jsRound_clamp_neg
    have : (W : ℚ) < (w : ℚ) := by exact_mod_cast hlt
    linarith

/-- Witness for C6: the center preset on a 800x600 poster with a
250-square overlay obeys the clamped bounds. -/
theorem c6_clamp_and_round_witness :
    0 ≤ (calculateUserImagePosition 800 600 250 250 (presetCfg "center" 20)).1 ∧
    (calculateUserImagePosition 800 600 250 250 (presetCfg "center" 20)).1 ≤ 350 ∧
    0 ≤ (calculateUserImagePosition 800 600 250 250 (presetCfg "center" 20)).2 ∧
    (calculateUserImagePosition 800 600 250 250 (presetCfg "center" 20)).2 ≤ 550 := by
  have h := (c6_clamp_and_round 800 600 250 250 (presetCfg "center" 20)).1
    (by norm_num) (by norm_num)
  norm_num at h
  exact_mod_cast h

/-- Counterexample to C5 as stated: on a 150x150 poster with a
100-square overlay, an unrecognized preset does not return (100, 20)
because the boundary clamp lowers top to 50; and a supplied margin of
0 is falsy in JS (`margin || 20`), so the top-left row resolves to
(20, 20) instead of the table's (m, m) = (0, 0). -/
theorem c5_counterexample :
    (calculateUserImagePosition 150 150 100 100 (presetCfg "outside" 20) = (50, 20) ∧
     calculateUserImagePosition 150 150 100 100 (presetCfg "outside" 20) ≠ (100, 20)) ∧
    (resolveUserImagePos 800 600 200 200 (presetCfg "top-left" 0) = (20, 20) ∧
     resolveUserImagePos 800 600 200 200 (presetCfg "top-left" 0) ≠ (0, 0)) := by
  have he : calculateUserImagePosition 150 150 100 100 (presetCfg "outside" 20) = (50, 20) := by
    simp [calculateUserImagePosition, resolveUserImagePos, presetUserImagePos, presetCfg,
      strTruthy, jsOrNum]
    norm_num [jsRound, min_def, max_def]
  have hz : resolveUserImagePos 800 600 200 200 (presetCfg "top-left" 0) = (20, 20) := by
    simp [resolveUserImagePos, presetUserImagePos, presetCfg, strTruthy, jsOrNum]
  refine ⟨⟨he, ?_⟩, hz, ?_⟩
  · rw [he]
    decide
  · rw [hz]
    norm_num

/-- Claim C5 (amended): the nine compass presets resolve as in the
spec table before clamping, with the effective margin being the
supplied margin when non-zero and the default 20 when it is absent or
0 (JS falsy `margin || 20`); the concrete center example returns
(200, 300); an unrecognized non-empty preset name resolves to
(100, 20) before clamping, and the returned value is (100, 20)
whenever 100 ≤ H-h and 20 ≤ W-w. -/
theorem c5_preset_table (W H w h m : ℚ) (hm : m ≠ 0) (p : String)
    (hp : p ∉ compassPresets) (hp0 : p ≠ "") :
    resolveUserImagePos W H w h (presetCfg "top-left" m) = (m, m) ∧
    resolveUserImagePos W H w h (presetCfg "top-center" m) = (m, (W - w) / 2) ∧
    resolveUserImagePos W H w h (presetCfg "top-right" m) = (m, W - w - m) ∧
    resolveUserImagePos W H w h (presetCfg "center-left" m) = ((H - h) / 2, m) ∧
    resolveUserImagePos W H w h (presetCfg "center" m) = ((H - h) / 2, (W - w) / 2) ∧
    resolveUserImagePos W H w h (presetCfg "center-right" m) = ((H - h) / 2, W - w - m) ∧
    resolveUserImagePos W H w h (presetCfg "bottom-left" m) = (H - h - m, m) ∧
    resolveUserImagePos W H w h (presetCfg "bottom-center" m) = (H - h - m, (W - w) / 2) ∧
    resolveUserImagePos W H w h (presetCfg "bottom-right" m) = (H - h - m, W - w - m) ∧
    resolveUserImagePos W H w h (presetCfg "top-left" 0)
      = resolveUserImagePos W H w h (presetCfg "top-left" 20) ∧
    resolveUserImagePos W H w h ⟨some "top-left", none, none, none, none⟩
      = resolveUserImagePos W H w h (presetCfg "top-left" 20) ∧
    calculateUserImagePosition 800 600 200 200 (presetCfg "center" 20) = (200, 300) ∧
    resolveUserImagePos W H w h (presetCfg p m) = (100, 20) ∧
    (100 ≤ H - h → 20 ≤ W - w →
      calculateUserImagePosition W H w h (presetCfg p m) = (100, 20)) := by
  have hp9 : p ≠ "top-left" ∧ p ≠ "top-center" ∧ p ≠ "top-right" ∧ p ≠ "center-left" ∧
      p ≠ "center" ∧ p ≠ "center-right" ∧ p ≠ "bottom-left" ∧ p ≠ "bottom-center" ∧
      p ≠ "bottom-right" := by
    simp only [compassPresets, List.mem_cons, List.mem_singleton, not_or] at hp
    tauto
  obtain ⟨n1, n2, n3, n4, n5, n6, n7, n8, n9⟩ := hp9
  have hres : resolveUserImagePos W H w h (presetCfg p m) = (100, 20) := by
    simp [resolveUserImagePos, presetUserImagePos, presetCfg, strTruthy, hp0,
      n1, n2, n3, n4, n5, n6, n7, n8, n9]
  refine ⟨?_, ?_, ?_, ?_, ?_, ?_, ?_, ?_, ?_, ?_, ?_, ?_, hres, ?_⟩
  · simp [resolveUserImagePos, presetUserImagePos, presetCfg, strTruthy, jsOrNum, hm]
  · simp [resolveUserImagePos, presetUserImagePos, presetCfg, strTruthy, jsOrNum, hm]
  · simp [resolveUserImagePos, presetUserImagePos, presetCfg, strTruthy, jsOrNum, hm]
  · simp [resolveUserImagePos, presetUserImagePos, presetCfg, strTruthy, jsOrNum, hm]
  · simp [resolveUserImagePos, presetUserImagePos, presetCfg, strTruthy, jsOrNum, hm]
  · simp [resolveUserImagePos, presetUserImagePos, presetCfg, strTruthy, jsOrNum, hm]
  · simp [resolveUserImagePos, presetUserImagePos, presetCfg, strTruthy, jsOrNum, hm]
  · simp [resolveUserImagePos, presetUserImagePos, presetCfg, strTruthy, jsOrNum, hm]
  · simp [resolveUserImagePos, presetUserImagePos, presetCfg, strTruthy, jsOrNum, hm]
  · simp [resolveUserImagePos, presetUserImagePos, presetCfg, strTruthy, jsOrNum]
  · simp [resolveUserImagePos, presetUserImagePos, presetCfg, strTruthy, jsOrNum]
  · simp [calculateUserImagePosition, resolveUserImagePos, presetUserImagePos, presetCfg,
      strTruthy, jsOrNum]
    norm_num [jsRound, min_def, max_def]
  · intro h1 h2
    unfold calculateUserImagePosition
    rw [hres]
    have m1 : min (100 : ℚ) (H - h) = 100 := min_eq_left h1
    have m2 : min (20 : ℚ) (W - w) = 20 := min_eq_left h2
    simp only [m1, m2]
    norm_num [jsRound, max_def]

/-- Witness for C5: at 800x600 with a 200-square overlay, the
unrecognized name resolves to the default and survives clamping, and
a zero margin behaves like the default margin 20. -/
theorem c5_preset_table_witness :
    resolveUserImagePos 800 600 200 200 (presetCfg "unknown" 20) = (100, 20) ∧
    calculateUserImagePosition 800 600 200 200 (presetCfg "unknown" 20) = (100, 20) ∧
    resolveUserImagePos 800 600 200 200 (presetCfg "top-left" 0)
      = resolveUserImagePos 800 600 200 200 (presetCfg "top-left" 20) := by
  have h := c5_preset_table 800 600 200 200 20 (by norm_num) "unknown" (by decide) (by decide)
  obtain ⟨r1, r2, r3, r4, r5, r6, r7, r8, r9, hz, hn, hc, hres, himp⟩ := h
  exact ⟨hres, himp (by norm_num) (by norm_num), hz⟩

/-- Claim C7: custom axes resolve independently, a percent string as
that percentage of the matching container dimension and a bare number
as pixels; the concrete mixed example returns (300, 100); an explicit
align in a custom text specification overrides the default anchor. -/
theorem c7_custom_resolution (W H w h p v Wt Ht : ℚ) (tc : TextCustom) (a : String)
    (ha : tc.align = some a) (ha0 : a ≠ "") :
    resolveUserImagePos W H w h (customCfg ⟨some (.pct p), some (.px v)⟩)
      = (p / 100 * H, v) ∧
    resolveUserImagePos W H w h (customCfg ⟨some (.px v), some (.pct p)⟩)
      = (v, p / 100 * W) ∧
    calculateUserImagePosition 800 600 100 100 (customCfg ⟨some (.pct 50), some (.px 100)⟩)
      = (300, 100) ∧
    (resolveTextPos Wt Ht ⟨none, none, none, some tc, none, none, none⟩).2.2 = a := by
  refine ⟨?_, ?_, ?_, ?_⟩
  · simp [resolveUserImagePos, customCfg, strTruthy, resolveCustomAxis]
  · simp [resolveUserImagePos, customCfg, strTruthy, resolveCustomAxis]
  · simp [calculateUserImagePosition, resolveUserImagePos, customCfg, strTruthy,
      resolveCustomAxis]
    norm_num [jsRound, min_def, max_def]
  · simp [resolveTextPos, strTruthy, ha, jsOrStr, ha0]

/-- Witness for C7: the mixed percent/pixel example and an explicit
end alignment. -/
theorem c7_custom_resolution_witness :
    resolveUserImagePos 800 600 100 100 (customCfg ⟨some (.pct 50), some (.px 100)⟩)
      = (50 / 100 * 600, 100) ∧
    (resolveTextPos 1000 500 ⟨none, none, none, some ⟨none, none, some "end"⟩,
      none, none, none⟩).2.2 = "end" := by
  have h := c7_custom_resolution 800 600 100 100 50 100 1000 500 ⟨none, none, some "end"⟩
    "end" rfl (by decide)
  exact ⟨h.1, h.2.2.2⟩

/-- Counterexample to C8 as stated: a legacy specification that
supplies top = 0 and left = 50 does not use the supplied top directly;
the JS falsy check replaces 0 by the default 100. -/
theorem c8_counterexample :
    calculateUserImagePosition 1000 1000 100 100 (legacyCfg (some 0) (some 50)) = (100, 50) ∧
    calculateUserImagePosition 1000 1000 100 100 (legacyCfg (some 0) (some 50)) ≠ (0, 50) := by
  have he : calculateUserImagePosition 1000 1000 100 100 (legacyCfg (some 0) (some 50))
      = (100, 50) := by
    simp [calculateUserImagePosition, resolveUserImagePos, legacyCfg, strTruthy, jsOrNum]
    norm_num [jsRound, min_def, max_def]
  refine ⟨he, ?_⟩
  rw [he]
  decide

/-- Claim C8 (amended): in legacy resolution every supplied non-zero
top/left (or x/y) pixel value is used directly with no margin logic; a
supplied zero is falsy in JS and falls back to the hardcoded default
exactly like an absent axis: top=100, left=20 for the image overlay
and x=W/2, y=H-50 with anchor middle for text. -/
theorem c8_legacy_resolution (W H w h t l x y : ℚ) (ht : t ≠ 0) (hl : l ≠ 0)
    (hx : x ≠ 0) (hy : y ≠ 0) :
    resolveUserImagePos W H w h (legacyCfg (some t) (some l)) = (t, l) ∧
    resolveUserImagePos W H w h (legacyCfg (some t) none) = (t, 20) ∧
    resolveUserImagePos W H w h (legacyCfg none (some l)) = (100, l) ∧
    resolveUserImagePos W H w h (legacyCfg none none) = (100, 20) ∧
    resolveUserImagePos W H w h (legacyCfg (some 0) (some l)) = (100, l) ∧
    resolveTextPos W H ⟨none, none, none, none, some x, some y, none⟩ = (x, y, "middle") ∧
    resolveTextPos W H ⟨none, none, none, none, none, none, none⟩
      = (W / 2, H - 50, "middle") := by
  refine ⟨?_, ?_, ?_, ?_, ?_, ?_, ?_⟩
  · simp [resolveUserImagePos, legacyCfg, strTruthy, jsOrNum, ht, hl]
  · simp [resolveUserImagePos, legacyCfg, strTruthy, jsOrNum, ht]
  · simp [resolveUserImagePos, legacyCfg, strTruthy, jsOrNum, hl]
  · simp [resolveUserImagePos, legacyCfg, strTruthy, jsOrNum]
  · simp [resolveUserImagePos, legacyCfg, strTruthy, jsOrNum, hl]
  · simp [resolveTextPos, strTruthy, jsOrNum, jsOrStr, hx, hy]
  · simp [resolveTextPos, strTruthy, jsOrNum, jsOrStr]

/-- Witness for C8: non-zero legacy coordinates pass through while a
zero top falls back to 100. -/
theorem c8_legacy_resolution_witness :
    resolveUserImagePos 1000 800 100 100 (legacyCfg (some 120) (some 45)) = (120, 45) ∧
    resolveUserImagePos 1000 800 100 100 (legacyCfg (some 0) (some 45)) = (100, 45) := by
  have h := c8_legacy_resolution 1000 800 100 100 120 45 500 450
    (by norm_num) (by norm_num) (by norm_num) (by norm_num)
  exact ⟨h.1, h.2.2.2.2.1⟩

/-- The preset switch only ever produces the three horizontal
anchors. -/
theorem presetTextPos_anchor (W H m fs : ℚ) (p : String) :
    (presetTextPos W H m fs p).2.2 = "start" ∨ (presetTextPos W H m fs p).2.2 = "middle" ∨
    (presetTextPos W H m fs p).2.2 = "end" := by
  unfold presetTextPos
  split_ifs <;> simp

/-- Claim C9: `placeText` resolves a preset to an anchor point plus a
horizontal anchor among start/middle/end, clamps x into [0, W] and y
into [fontSize, H], defaults unrecognized presets to the bottom-center
row, and the concrete bottom-center example returns
(500, 480, middle). -/
theorem c9_text_positioning (W H fs : ℕ) (Wq Hq m f : ℚ) (cfg cfg2 : TextConfig)
    (p : String) (hp : p ∉ compassPresets) (hp0 : p ≠ "") :
    calculateTextPosition 1000 500 (textPresetCfg "bottom-center" 20 40)
      = (500, 480, "middle") ∧
    (strTruthy cfg2.preset = true →
      (calculateTextPosition Wq Hq cfg2).2.2 ∈ ["start", "middle", "end"]) ∧
    (jsOrNum cfg.fontSize 40 = (fs : ℚ) → fs ≤ H →
      0 ≤ (calculateTextPosition (W : ℚ) (H : ℚ) cfg).1 ∧
      (calculateTextPosition (W : ℚ) (H : ℚ) cfg).1 ≤ (W : ℤ) ∧
      (fs : ℤ) ≤ (calculateTextPosition (W : ℚ) (H : ℚ) cfg).2.1 ∧
      (calculateTextPosition (W : ℚ) (H : ℚ) cfg).2.1 ≤ (H : ℤ)) ∧
    resolveTextPos Wq Hq (textPresetCfg p m f)
      = resolveTextPos Wq Hq (textPresetCfg "bottom-center" m f) := by
  have hp9 : p ≠ "top-left" ∧ p ≠ "top-center" ∧ p ≠ "top-right" ∧ p ≠ "center-left" ∧
      p ≠ "center" ∧ p ≠ "center-right" ∧ p ≠ "bottom-left" ∧ p ≠ "bottom-center" ∧
      p ≠ "bottom-right" := by
    simp only [compassPresets, List.mem_cons, List.mem_singleton, not_or] at hp
    tauto
  obtain ⟨n1, n2, n3, n4, n5, n6, n7, n8, n9⟩ := hp9
  refine ⟨?_, ?_, ?_, ?_⟩
  · simp [calculateTextPosition, resolveTextPos, presetTextPos, textPresetCfg, strTruthy,
      jsOrNum]
    norm_num [jsRound, min_def, max_def]
  · intro hpre
    have e3 : (calculateTextPosition Wq Hq cfg2).2.2 = (resolveTextPos Wq Hq cfg2).2.2 := rfl
    rw [e3]
    unfold resolveTextPos
    rw [if_pos hpre]
    rcases presetTextPos_anchor Wq Hq (jsOrNum cfg2.margin 20) (jsOrNum cfg2.fontSize 40)
      (cfg2.preset.getD "") with ha | ha | ha <;> rw [ha] <;> decide
  · intro hfs hfsH
    have ex : (calculateTextPosition (W : ℚ) (H : ℚ) cfg).1
        = jsRound (max 0 (min (resolveTextPos W H cfg).1 (W : ℚ))) := rfl
    have ey : (calculateTextPosition (W : ℚ) (H : ℚ) cfg).2.1
        = jsRound (max (jsOrNum cfg.fontSize 40) (min (resolveTextPos W H cfg).2.1 (H : ℚ)))
        := rfl
    have hbx := jsRound_clamp_mem (resolveTextPos W H cfg).1 0 (W : ℤ) (by omega)
    have hby := jsRound_clamp_mem (resolveTextPos W H cfg).2.1 (fs : ℤ) (H : ℤ)
      (by exact_mod_cast hfsH)
    push_cast at hbx hby
    rw [ex, ey, hfs]
    exact ⟨hbx.1, hbx.2, hby.1, hby.2⟩
  · simp [resolveTextPos, presetTextPos, textPresetCfg, strTruthy, hp0,
      n1, n2, n3, n4, n5, n6, n7, n8, n9]

/-- Witness for C9: the bottom-center example, with its y coordinate
inside [fontSize, H]. -/
theorem c9_text_positioning_witness :
    calculateTextPosition 1000 500 (textPresetCfg "bottom-center" 20 40)
      = (500, 480, "middle") ∧
    (40 : ℤ) ≤ (calculateTextPosition 1000 500 (textPresetCfg "bottom-center" 20 40)).2.1 ∧
    (calculateTextPosition 1000 500 (textPresetCfg "bottom-center" 20 40)).2.1 ≤ 500 := by
  have h := c9_text_positioning 1000 500 40 1000 500 20 40
    (textPresetCfg "bottom-center" 20 40) (textPresetCfg "bottom-center" 20 40)
    "unknown" (by decide) (by decide)
  have hy := h.2.2.1 (by norm_num [textPresetCfg, jsOrNum]) (by norm_num)
  refine ⟨h.1, ?_, ?_⟩
  · exact_mod_cast hy.2.2.1
  · exact_mod_cast hy.2.2.2

/-- Claim C10: per-recipient personalization happens only when both the
include_user_image flag is set and a poster file was uploaded; when
either is missing every recipient gets the plain-text message with the
name placeholder substituted, and no personalizedImageUrl is recorded
in any Delivery Result. -/
theorem c10_personalization_guard (env : Env) (pp iui : Bool) (c t : String)
    (users : List UserRec) :
    (pp = false ∨ iui = false →
      (∀ u : UserRec, attemptBuild env pp iui c t u
        = Except.ok (MessagePayload.text u.user_phone (substituteName c u.user_name), none)) ∧
      (∀ r ∈ (runRecipientLoop env pp iui c t users (initLoopSummary users.length, [])).2,
        r.personalizedImageUrl = none)) ∧
    (pp = true → iui = true → ∀ u url, env.personalize u = PersonalizeOutcome.ok url →
      attemptBuild env pp iui c t u
        = Except.ok (MessagePayload.template u.user_phone t url u.user_name, some url)) := by
  constructor
  · intro hor
    have hb : ∀ u : UserRec, attemptBuild env pp iui c t u
        = Except.ok (MessagePayload.text u.user_phone (substituteName c u.user_name), none) := by
      intro u
      unfold attemptBuild
      rcases hor with hfalse | hfalse <;> subst hfalse <;> simp
    refine ⟨hb, ?_⟩
    intro r hr
    have hsp := runLoop_spec env pp iui c t users (initLoopSummary users.length, [])
    rw [hsp.2.2.2] at hr
    simp only [List.nil_append, List.mem_map] at hr
    obtain ⟨u, hu, hru⟩ := hr
    subst hru
    unfold processOneUser
    rw [hb u]
    rcases hs : env.send u (MessagePayload.text u.user_phone (substituteName c u.user_name))
      with mid | e <;> simp [hs, successResult, failedResult]
  · intro hpp hiui u url hper
    subst hpp
    subst hiui
    unfold attemptBuild
    simp [hper]

/-- Witness for C10: with the flag set but no poster file, the demo
user receives the substituted plain text and no personalized URL. -/
theorem c10_personalization_guard_witness :
    attemptBuild envAllOk false true "Hello \x7b\x7bname\x7d\x7d" "poster_template" demoUser
      = Except.ok (MessagePayload.text "919999999999" "Hello Alice", none) := by
  have h := (c10_personalization_guard envAllOk false true "Hello \x7b\x7bname\x7d\x7d"
    "poster_template" [demoUser]).1 (Or.inl rfl)
  rw [h.1 demoUser]
  rfl

end WhatsAppAutomation
